import Mathlib

/-!
Shallow embedding of the lcx-api TypeScript repository: the public REST
client `PublicRestClient` and the type declarations it uses.  TypeScript
`number` fields are modelled as `Int` (the client performs no arithmetic
on them), optional fields as `Option`, string-literal unions as inductive
types, and the axios transport as an explicit function from requests to
responses.  Each operation returns the list of issued requests, the
outcome (`Except` with the raw transport response as the error value,
mirroring `throw axiosResponse`), and the post-call client state.
-/

/-- All supported kline timeframes: "1" | "3" | "5" | "15" | "30" | "45" |
"60" | "120" | "180" | "240" | "1D" | "1W" | "1M". -/
inductive KlineTimeframe where
  | r1 | r3 | r5 | r15 | r30 | r45 | r60 | r120 | r180 | r240 | r1D | r1W | r1M
deriving DecidableEq, Repr

/-- Order side: "BUY" | "SELL". -/
inductive OrderSide where
  | BUY | SELL
deriving DecidableEq, Repr

/-- Side of the filled opposing limit order. -/
abbrev MakerSide := OrderSide

/-- Trade: a fixed-position tuple [BaseQty, Price, MakerSide, TimestampMs]. -/
abbrev Trade := Int × Int × OrderSide × Int

/-- Kline record; the TS field `open` is rendered `open_`. -/
structure Kline where
  close : Int
  high : Int
  low : Int
  open_ : Int
  pair : String
  timeframe : KlineTimeframe
  timestamp : Int
  volume : Int
deriving DecidableEq, Repr

/-- Pair precision sub-record. -/
structure PairPrecision where
  Amount : Int
  Price : Int
  Total : Int
deriving DecidableEq, Repr

/-- Pair order limit sub-record. -/
structure PairOrderLimit where
  Base : Int
  Quote : Int
deriving DecidableEq, Repr

/-- Trading pair record. -/
structure Pair where
  Id : String
  Symbol : String
  Base : String
  Quote : String
  Precision : PairPrecision
  Orderprecision : PairPrecision
  MinOrder : PairOrderLimit
  MaxOrder : PairOrderLimit
  Status : Bool
  CreatedAt : String
  UpdatedAt : String
  ListingPrice : Int
  Mode : String
deriving DecidableEq, Repr

/-- One point of a ticker chart. -/
structure TickerChartPoint where
  Time : Int
  Close : Int
deriving DecidableEq, Repr

/-- Ticker chart: a list of chart points. -/
abbrev TickerChart := List TickerChartPoint

/-- Ticker record. -/
structure Ticker where
  bestAsk : Int
  bestBid : Int
  change : Int
  chart : TickerChart
  equivalent : Int
  high : Int
  last24Price : Int
  lastPrice : Int
  lastUpdated : Int
  low : Int
  symbol : String
  usdVolume : Int
  volume : Int
deriving DecidableEq

/-- Request parameters of the public endpoint "/api/book". -/
structure OrderbookRequestParams where
  pair : String
deriving DecidableEq, Repr

/-- Request parameters of the public endpoint "/v1/market/kline"; the TS
fields `from` and `to` are rendered `fromTs` and `toTs`. -/
structure KlineRequestParams where
  pair : String
  resolution : KlineTimeframe
  fromTs : Int
  toTs : Int
deriving DecidableEq, Repr

/-- Request parameters of the public endpoint "/api/trades". -/
structure TradeRequestParams where
  pair : String
  offset : Int
deriving DecidableEq, Repr

/-- Request parameters of the public endpoint "/api/pair". -/
structure PairRequestParams where
  pair : String
deriving DecidableEq, Repr

/-- Request parameters of the public endpoint "/api/ticker". -/
structure TickerRequestParams where
  pair : String
deriving DecidableEq, Repr

/-- Response envelope of every endpoint: `data`, optional `count`,
`message`, `status`. -/
structure ApiResponse (DataType : Type) where
  data : DataType
  count : Option Int
  message : String
  status : String
deriving DecidableEq

/-- Orderbook endpoint response data: arrays of (price, quantity) tuples. -/
structure OrderbookData where
  buy : List (Int × Int)
  sell : List (Int × Int)
deriving DecidableEq, Repr

/-- Kline endpoint response data. -/
abbrev KlineData := List Kline

/-- Trade endpoint response data. -/
abbrev TradeData := List Trade

/-- Pairs endpoint response data. -/
abbrev PairsData := List Pair

/-- Pair endpoint response data. -/
abbrev PairData := Pair

/-- Tickers endpoint response data: Record<string, Ticker> modelled as an
association list. -/
abbrev TickersData := List (String × Ticker)

/-- Ticker endpoint response data. -/
abbrev TickerData := Ticker

/-- Client configuration: optional overrides for both base URLs. -/
structure PublicRestClientConfig where
  baseUrl : Option String
  klineUrl : Option String
deriving DecidableEq, Repr

/-- The options object passed to a single axios get call: the path, the
fixed method string, the base URL, the header list and the forwarded query
parameters (`none` when the TS argument is omitted / undefined). -/
structure Request (P : Type) where
  path : String
  method : String
  baseURL : String
  headers : List (String × String)
  params : Option P
deriving DecidableEq

/-- The raw transport-layer (axios) response: HTTP status code and parsed
JSON body. -/
structure AxiosResponse (D : Type) where
  status : Nat
  data : ApiResponse D
deriving DecidableEq

/-- The axios instance, modelled as a function from the issued request to
the transport response. -/
abbrev Transport (P D : Type) := Request P → AxiosResponse D

/-- Client state: the stored config and the two resolved base URLs.  The
axios instance is modelled as the `Transport` argument of each call. -/
structure PublicRestClient where
  config : PublicRestClientConfig
  baseUrl : String
  klineUrl : String
deriving DecidableEq, Repr

/-- Result of one client call: the requests issued to the transport, the
outcome (parsed body, or the raw transport response thrown on non-200),
and the client state after the call. -/
structure CallResult (P D : Type) where
  requests : List (Request P)
  outcome : Except (AxiosResponse D) (ApiResponse D)
  finalState : PublicRestClient

/-- Default main base URL from the `defaultConfig` of the constructor. -/
def defaultBaseUrl : String := "https://exchange-api.lcx.com/"

/-- Default kline base URL from the `defaultConfig` of the constructor. -/
def defaultKlineUrl : String := "https://api-kline.lcx.com/"

/-- The constructor: `this.config = config ?? defaultConfig`, then each URL
is `this.config.url ?? defaultConfig.url`.  The `axiosConfig` pass-through
to `axios.create` is not part of the modelled state. -/
def PublicRestClient.new (config : Option PublicRestClientConfig) :
    PublicRestClient :=
  let defaultConfig : PublicRestClientConfig :=
    { baseUrl := some defaultBaseUrl, klineUrl := some defaultKlineUrl }
  let cfg := config.getD defaultConfig
  { config := cfg
    baseUrl := cfg.baseUrl.getD defaultBaseUrl
    klineUrl := cfg.klineUrl.getD defaultKlineUrl }

/-- The options object built by both private helpers: fixed "get" method,
the given base URL, a single Content-Type header, forwarded params. -/
def builtRequest {P : Type} (baseURL path : String) (params : Option P) :
    Request P :=
  { path := path
    method := "get"
    baseURL := baseURL
    headers := [("Content-Type", "application/json")]
    params := params }

/-- Private helper `getWithBaseUrl`: one GET against `this.baseUrl`;
return the parsed body on status 200, otherwise throw the raw response. -/
def PublicRestClient.getWithBaseUrl {P D : Type} (self : PublicRestClient)
    (transport : Transport P D) (path : String) (params : Option P) :
    CallResult P D :=
  let req : Request P := builtRequest self.baseUrl path params
  let axiosResponse := transport req
  if axiosResponse.status = 200 then
    { requests := [req], outcome := Except.ok axiosResponse.data,
      finalState := self }
  else
    { requests := [req], outcome := Except.error axiosResponse,
      finalState := self }

/-- Private helper `getWithKlineUrl`: one GET against `this.klineUrl`;
return the parsed body on status 200, otherwise throw the raw response. -/
def PublicRestClient.getWithKlineUrl {P D : Type} (self : PublicRestClient)
    (transport : Transport P D) (path : String) (params : Option P) :
    CallResult P D :=
  let req : Request P := builtRequest self.klineUrl path params
  let axiosResponse := transport req
  if axiosResponse.status = 200 then
    { requests := [req], outcome := Except.ok axiosResponse.data,
      finalState := self }
  else
    { requests := [req], outcome := Except.error axiosResponse,
      finalState := self }

/-- Public operation getOrderbook: GET "/api/book" with params. -/
def PublicRestClient.getOrderbook (self : PublicRestClient)
    (transport : Transport OrderbookRequestParams OrderbookData)
    (params : OrderbookRequestParams) :
    CallResult OrderbookRequestParams OrderbookData :=
  self.getWithBaseUrl transport "/api/book" (some params)

/-- Public operation getKline: GET "/v1/market/kline" with params against
the kline URL. -/
def PublicRestClient.getKline (self : PublicRestClient)
    (transport : Transport KlineRequestParams KlineData)
    (params : KlineRequestParams) :
    CallResult KlineRequestParams KlineData :=
  self.getWithKlineUrl transport "/v1/market/kline" (some params)

/-- Public operation getTrades: GET "/api/trades" with params. -/
def PublicRestClient.getTrades (self : PublicRestClient)
    (transport : Transport TradeRequestParams TradeData)
    (params : TradeRequestParams) :
    CallResult TradeRequestParams TradeData :=
  self.getWithBaseUrl transport "/api/trades" (some params)

/-- Public operation getPairs: GET "/api/pairs", params omitted. -/
def PublicRestClient.getPairs (self : PublicRestClient)
    (transport : Transport Unit PairsData) :
    CallResult Unit PairsData :=
  self.getWithBaseUrl transport "/api/pairs" none

/-- Public operation getPair: GET "/api/pair" with params. -/
def PublicRestClient.getPair (self : PublicRestClient)
    (transport : Transport PairRequestParams PairData)
    (params : PairRequestParams) :
    CallResult PairRequestParams PairData :=
  self.getWithBaseUrl transport "/api/pair" (some params)

/-- Public operation getTickers: GET "/api/tickers", params omitted. -/
def PublicRestClient.getTickers (self : PublicRestClient)
    (transport : Transport Unit TickersData) :
    CallResult Unit TickersData :=
  self.getWithBaseUrl transport "/api/tickers" none

/-- Public operation getTicker: GET "/api/ticker" with params. -/
def PublicRestClient.getTicker (self : PublicRestClient)
    (transport : Transport TickerRequestParams TickerData)
    (params : TickerRequestParams) :
    CallResult TickerRequestParams TickerData :=
  self.getWithBaseUrl transport "/api/ticker" (some params)

/-!
Generic lemmas about the two private helpers, shared by the claim
theorems below.
-/

/-- The body-iff-200 discipline of both helpers: the parsed body is
returned exactly when the transport status is 200, and otherwise the raw
transport response is the thrown value. -/
def ReturnsIff200 {P D : Type} (res : CallResult P D) (resp : AxiosResponse D) : Prop :=
  (res.outcome = Except.ok resp.data ↔ resp.status = 200) ∧
  (resp.status ≠ 200 → res.outcome = Except.error resp)

theorem getWithBaseUrl_requests {P D : Type} (c : PublicRestClient)
    (t : Transport P D) (path : String) (ps : Option P) :
    (c.getWithBaseUrl t path ps).requests = [builtRequest c.baseUrl path ps] := by
  unfold PublicRestClient.getWithBaseUrl
  dsimp only
  split <;> rfl

theorem getWithKlineUrl_requests {P D : Type} (c : PublicRestClient)
    (t : Transport P D) (path : String) (ps : Option P) :
    (c.getWithKlineUrl t path ps).requests = [builtRequest c.klineUrl path ps] := by
  unfold PublicRestClient.getWithKlineUrl
  dsimp only
  split <;> rfl

theorem getWithBaseUrl_finalState {P D : Type} (c : PublicRestClient)
    (t : Transport P D) (path : String) (ps : Option P) :
    (c.getWithBaseUrl t path ps).finalState = c := by
  unfold PublicRestClient.getWithBaseUrl
  dsimp only
  split <;> rfl

theorem getWithKlineUrl_finalState {P D : Type} (c : PublicRestClient)
    (t : Transport P D) (path : String) (ps : Option P) :
    (c.getWithKlineUrl t path ps).finalState = c := by
  unfold PublicRestClient.getWithKlineUrl
  dsimp only
  split <;> rfl

theorem getWithBaseUrl_outcome_ok {P D : Type} (c : PublicRestClient)
    (t : Transport P D) (path : String) (ps : Option P)
    (h : (t (builtRequest c.baseUrl path ps)).status = 200) :
    (c.getWithBaseUrl t path ps).outcome
      = Except.ok (t (builtRequest c.baseUrl path ps)).data := by
  unfold PublicRestClient.getWithBaseUrl
  simp only [h, if_pos]

theorem getWithBaseUrl_outcome_err {P D : Type} (c : PublicRestClient)
    (t : Transport P D) (path : String) (ps : Option P)
    (h : (t (builtRequest c.baseUrl path ps)).status ≠ 200) :
    (c.getWithBaseUrl t path ps).outcome
      = Except.error (t (builtRequest c.baseUrl path ps)) := by
  unfold PublicRestClient.getWithBaseUrl
  simp only [h, if_neg, if_false]

theorem getWithKlineUrl_outcome_ok {P D : Type} (c : PublicRestClient)
    (t : Transport P D) (path : String) (ps : Option P)
    (h : (t (builtRequest c.klineUrl path ps)).status = 200) :
    (c.getWithKlineUrl t path ps).outcome
      = Except.ok (t (builtRequest c.klineUrl path ps)).data := by
  unfold PublicRestClient.getWithKlineUrl
  simp only [h, if_pos]

theorem getWithKlineUrl_outcome_err {P D : Type} (c : PublicRestClient)
    (t : Transport P D) (path : String) (ps : Option P)
    (h : (t (builtRequest c.klineUrl path ps)).status ≠ 200) :
    (c.getWithKlineUrl t path ps).outcome
      = Except.error (t (builtRequest c.klineUrl path ps)) := by
  unfold PublicRestClient.getWithKlineUrl
  simp only [h, if_neg, if_false]

theorem returnsIff200_getWithBaseUrl {P D : Type} (c : PublicRestClient)
    (t : Transport P D) (path : String) (ps : Option P) :
    ReturnsIff200 (c.getWithBaseUrl t path ps) (t (builtRequest c.baseUrl path ps)) := by
  by_cases h : (t (builtRequest c.baseUrl path ps)).status = 200
  · exact ⟨⟨fun _ => h, fun _ => getWithBaseUrl_outcome_ok c t path ps h⟩,
      fun hn => absurd h hn⟩
  · refine ⟨⟨fun hok => ?_, fun h200 => absurd h200 h⟩,
      fun _ => getWithBaseUrl_outcome_err c t path ps h⟩
    rw [getWithBaseUrl_outcome_err c t path ps h] at hok
    exact Except.noConfusion hok

theorem returnsIff200_getWithKlineUrl {P D : Type} (c : PublicRestClient)
    (t : Transport P D) (path : String) (ps : Option P) :
    ReturnsIff200 (c.getWithKlineUrl t path ps) (t (builtRequest c.klineUrl path ps)) := by
  by_cases h : (t (builtRequest c.klineUrl path ps)).status = 200
  · exact ⟨⟨fun _ => h, fun _ => getWithKlineUrl_outcome_ok c t path ps h⟩,
      fun hn => absurd h hn⟩
  · refine ⟨⟨fun hok => ?_, fun h200 => absurd h200 h⟩,
      fun _ => getWithKlineUrl_outcome_err c t path ps h⟩
    rw [getWithKlineUrl_outcome_err c t path ps h] at hok
    exact Except.noConfusion hok

theorem mem_requests_getWithBaseUrl {P D : Type} (c : PublicRestClient)
    (t : Transport P D) (path : String) (ps : Option P) {r : Request P}
    (hr : r ∈ (c.getWithBaseUrl t path ps).requests) :
    r = builtRequest c.baseUrl path ps := by
  rw [getWithBaseUrl_requests] at hr
  exact List.mem_singleton.mp hr

theorem mem_requests_getWithKlineUrl {P D : Type} (c : PublicRestClient)
    (t : Transport P D) (path : String) (ps : Option P) {r : Request P}
    (hr : r ∈ (c.getWithKlineUrl t path ps).requests) :
    r = builtRequest c.klineUrl path ps := by
  rw [getWithKlineUrl_requests] at hr
  exact List.mem_singleton.mp hr

theorem singleGetJson_getWithBaseUrl {P D : Type} (c : PublicRestClient)
    (t : Transport P D) (path : String) (ps : Option P) :
    (c.getWithBaseUrl t path ps).requests.length = 1 ∧
    ∀ r ∈ (c.getWithBaseUrl t path ps).requests, r.method = "get" ∧
      ("Content-Type", "application/json") ∈ r.headers := by
  refine ⟨by rw [getWithBaseUrl_requests]; rfl, ?_⟩
  intro r hr
  rcases mem_requests_getWithBaseUrl c t path ps hr with rfl
  exact ⟨rfl, List.mem_singleton.mpr rfl⟩

theorem singleGetJson_getWithKlineUrl {P D : Type} (c : PublicRestClient)
    (t : Transport P D) (path : String) (ps : Option P) :
    (c.getWithKlineUrl t path ps).requests.length = 1 ∧
    ∀ r ∈ (c.getWithKlineUrl t path ps).requests, r.method = "get" ∧
      ("Content-Type", "application/json") ∈ r.headers := by
  refine ⟨by rw [getWithKlineUrl_requests]; rfl, ?_⟩
  intro r hr
  rcases mem_requests_getWithKlineUrl c t path ps hr with rfl
  exact ⟨rfl, List.mem_singleton.mpr rfl⟩

/-- Single helper parameterized by the base URL it attaches.  Modelled
from the spec wording of the refinement claim, for comparison with the two
source helpers `getWithBaseUrl` and `getWithKlineUrl`. -/
def PublicRestClient.getWithUrl {P D : Type} (self : PublicRestClient)
    (url : String) (transport : Transport P D) (path : String)
    (params : Option P) : CallResult P D :=
  let req : Request P := builtRequest url path params
  let axiosResponse := transport req
  if axiosResponse.status = 200 then
    { requests := [req], outcome := Except.ok axiosResponse.data,
      finalState := self }
  else
    { requests := [req], outcome := Except.error axiosResponse,
      finalState := self }

/-!
Sample concrete values used by the witness theorems.
-/

/-- Sample client constructed with no config. -/
def sampleClient : PublicRestClient := PublicRestClient.new none

/-- Sample orderbook request parameters. -/
def samplePairParams : OrderbookRequestParams := { pair := "LCX/USDC" }

/-- Sample orderbook error body. -/
def sampleOrderbookBody : ApiResponse OrderbookData :=
  { data := { buy := [(1, 2)], sell := [] }, count := none,
    message := "not found", status := "error" }

/-- Sample 404 orderbook transport response. -/
def sampleOrderbookResp404 : AxiosResponse OrderbookData :=
  { status := 404, data := sampleOrderbookBody }

/-- Sample transport answering every orderbook request with status 404. -/
def sampleOrderbookT404 : Transport OrderbookRequestParams OrderbookData :=
  fun _ => sampleOrderbookResp404

/-- Sample orderbook success body. -/
def sampleOrderbookBody200 : ApiResponse OrderbookData :=
  { data := { buy := [(3, 4)], sell := [(5, 6)] }, count := some 2,
    message := "ok", status := "success" }

/-- Sample 200 orderbook transport response. -/
def sampleOrderbookResp200 : AxiosResponse OrderbookData :=
  { status := 200, data := sampleOrderbookBody200 }

/-- Sample transport answering every orderbook request with status 200. -/
def sampleOrderbookT200 : Transport OrderbookRequestParams OrderbookData :=
  fun _ => sampleOrderbookResp200

/-- Sample trades request parameters. -/
def sampleTradeParams : TradeRequestParams := { pair := "LCX/USDC", offset := 1 }

/-- Sample trades error body. -/
def sampleTradeBody : ApiResponse TradeData :=
  { data := [], count := none, message := "server error", status := "error" }

/-- Sample 500 trades transport response. -/
def sampleTradeResp500 : AxiosResponse TradeData :=
  { status := 500, data := sampleTradeBody }

/-- Sample transport answering every trades request with status 500. -/
def sampleTradeT500 : Transport TradeRequestParams TradeData :=
  fun _ => sampleTradeResp500

/-- Sample pairs success body. -/
def samplePairsBody : ApiResponse PairsData :=
  { data := [], count := some 0, message := "ok", status := "success" }

/-- Sample transport answering every pairs request with status 200. -/
def samplePairsT200 : Transport Unit PairsData :=
  fun _ => { status := 200, data := samplePairsBody }

/-- Sample kline request parameters. -/
def sampleKlineParams : KlineRequestParams :=
  { pair := "LCX/USDC", resolution := KlineTimeframe.r1,
    fromTs := 1700000000, toTs := 1700003600 }

/-- Sample kline error body. -/
def sampleKlineBody : ApiResponse KlineData :=
  { data := [], count := none, message := "bad request", status := "error" }

/-- Sample 400 kline transport response. -/
def sampleKlineResp400 : AxiosResponse KlineData :=
  { status := 400, data := sampleKlineBody }

/-- Sample transport answering every kline request with status 400. -/
def sampleKlineT400 : Transport KlineRequestParams KlineData :=
  fun _ => sampleKlineResp400

/-!
Claim theorems.
-/

/-- C1: for every public operation (getOrderbook, getKline, getTrades,
getPairs, getPair, getTickers, getTicker) and every transport response,
the call returns the parsed response body if and only if the HTTP status
code is exactly 200; for any other status code the call throws. -/
theorem C1_parsed_body_iff_status_200 :
    (∀ (c : PublicRestClient) (t : Transport OrderbookRequestParams OrderbookData) p,
      ReturnsIff200 (c.getOrderbook t p) (t (builtRequest c.baseUrl "/api/book" (some p)))) ∧
    (∀ (c : PublicRestClient) (t : Transport KlineRequestParams KlineData) p,
      ReturnsIff200 (c.getKline t p) (t (builtRequest c.klineUrl "/v1/market/kline" (some p)))) ∧
    (∀ (c : PublicRestClient) (t : Transport TradeRequestParams TradeData) p,
      ReturnsIff200 (c.getTrades t p) (t (builtRequest c.baseUrl "/api/trades" (some p)))) ∧
    (∀ (c : PublicRestClient) (t : Transport Unit PairsData),
      ReturnsIff200 (c.getPairs t) (t (builtRequest c.baseUrl "/api/pairs" none))) ∧
    (∀ (c : PublicRestClient) (t : Transport PairRequestParams PairData) p,
      ReturnsIff200 (c.getPair t p) (t (builtRequest c.baseUrl "/api/pair" (some p)))) ∧
    (∀ (c : PublicRestClient) (t : Transport Unit TickersData),
      ReturnsIff200 (c.getTickers t) (t (builtRequest c.baseUrl "/api/tickers" none))) ∧
    (∀ (c : PublicRestClient) (t : Transport TickerRequestParams TickerData) p,
      ReturnsIff200 (c.getTicker t p) (t (builtRequest c.baseUrl "/api/ticker" (some p)))) :=
  ⟨fun c t p => returnsIff200_getWithBaseUrl c t "/api/book" (some p),
   fun c t p => returnsIff200_getWithKlineUrl c t "/v1/market/kline" (some p),
   fun c t p => returnsIff200_getWithBaseUrl c t "/api/trades" (some p),
   fun c t => returnsIff200_getWithBaseUrl c t "/api/pairs" none,
   fun c t p => returnsIff200_getWithBaseUrl c t "/api/pair" (some p),
   fun c t => returnsIff200_getWithBaseUrl c t "/api/tickers" none,
   fun c t p => returnsIff200_getWithBaseUrl c t "/api/ticker" (some p)⟩

/-- Witness for C1: a concrete getOrderbook call against a transport that
answers with status 404 throws the raw response. -/
theorem C1_parsed_body_iff_status_200_witness :
    (sampleClient.getOrderbook sampleOrderbookT404 samplePairParams).outcome
      = Except.error sampleOrderbookResp404 :=
  (C1_parsed_body_iff_status_200.1 sampleClient sampleOrderbookT404
    samplePairParams).2 (by decide)

/-- C2: when a public operation fails because of a non-200 HTTP status,
the thrown value is the raw transport-layer response object, unmodified
and not translated into a domain error. -/
theorem C2_raw_response_thrown :
    (∀ (c : PublicRestClient) (t : Transport OrderbookRequestParams OrderbookData) p,
      (t (builtRequest c.baseUrl "/api/book" (some p))).status ≠ 200 →
      (c.getOrderbook t p).outcome
        = Except.error (t (builtRequest c.baseUrl "/api/book" (some p)))) ∧
    (∀ (c : PublicRestClient) (t : Transport KlineRequestParams KlineData) p,
      (t (builtRequest c.klineUrl "/v1/market/kline" (some p))).status ≠ 200 →
      (c.getKline t p).outcome
        = Except.error (t (builtRequest c.klineUrl "/v1/market/kline" (some p)))) ∧
    (∀ (c : PublicRestClient) (t : Transport TradeRequestParams TradeData) p,
      (t (builtRequest c.baseUrl "/api/trades" (some p))).status ≠ 200 →
      (c.getTrades t p).outcome
        = Except.error (t (builtRequest c.baseUrl "/api/trades" (some p)))) ∧
    (∀ (c : PublicRestClient) (t : Transport Unit PairsData),
      (t (builtRequest c.baseUrl "/api/pairs" none)).status ≠ 200 →
      (c.getPairs t).outcome
        = Except.error (t (builtRequest c.baseUrl "/api/pairs" none))) ∧
    (∀ (c : PublicRestClient) (t : Transport PairRequestParams PairData) p,
      (t (builtRequest c.baseUrl "/api/pair" (some p))).status ≠ 200 →
      (c.getPair t p).outcome
        = Except.error (t (builtRequest c.baseUrl "/api/pair" (some p)))) ∧
    (∀ (c : PublicRestClient) (t : Transport Unit TickersData),
      (t (builtRequest c.baseUrl "/api/tickers" none)).status ≠ 200 →
      (c.getTickers t).outcome
        = Except.error (t (builtRequest c.baseUrl "/api/tickers" none))) ∧
    (∀ (c : PublicRestClient) (t : Transport TickerRequestParams TickerData) p,
      (t (builtRequest c.baseUrl "/api/ticker" (some p))).status ≠ 200 →
      (c.getTicker t p).outcome
        = Except.error (t (builtRequest c.baseUrl "/api/ticker" (some p)))) :=
  ⟨fun c t p h => getWithBaseUrl_outcome_err c t "/api/book" (some p) h,
   fun c t p h => getWithKlineUrl_outcome_err c t "/v1/market/kline" (some p) h,
   fun c t p h => getWithBaseUrl_outcome_err c t "/api/trades" (some p) h,
   fun c t h => getWithBaseUrl_outcome_err c t "/api/pairs" none h,
   fun c t p h => getWithBaseUrl_outcome_err c t "/api/pair" (some p) h,
   fun c t h => getWithBaseUrl_outcome_err c t "/api/tickers" none h,
   fun c t p h => getWithBaseUrl_outcome_err c t "/api/ticker" (some p) h⟩

/-- Witness for C2: a concrete getTrades call against a transport that
answers with status 500 throws exactly that raw response. -/
theorem C2_raw_response_thrown_witness :
    (sampleClient.getTrades sampleTradeT500 sampleTradeParams).outcome
      = Except.error sampleTradeResp500 :=
  C2_raw_response_thrown.2.2.1 sampleClient sampleTradeT500 sampleTradeParams
    (by decide)

/-- C3: each public operation issues its request to its fixed path against
the correct base URL: getOrderbook to "/api/book", getTrades to
"/api/trades", getPairs to "/api/pairs", getPair to "/api/pair",
getTickers to "/api/tickers", getTicker to "/api/ticker", all against the
main base URL, and getKline alone to "/v1/market/kline" against the kline
base URL. -/
theorem C3_fixed_paths_and_base_urls :
    (∀ (c : PublicRestClient) (t : Transport OrderbookRequestParams OrderbookData) p,
      ∀ r ∈ (c.getOrderbook t p).requests, r.path = "/api/book" ∧ r.baseURL = c.baseUrl) ∧
    (∀ (c : PublicRestClient) (t : Transport KlineRequestParams KlineData) p,
      ∀ r ∈ (c.getKline t p).requests, r.path = "/v1/market/kline" ∧ r.baseURL = c.klineUrl) ∧
    (∀ (c : PublicRestClient) (t : Transport TradeRequestParams TradeData) p,
      ∀ r ∈ (c.getTrades t p).requests, r.path = "/api/trades" ∧ r.baseURL = c.baseUrl) ∧
    (∀ (c : PublicRestClient) (t : Transport Unit PairsData),
      ∀ r ∈ (c.getPairs t).requests, r.path = "/api/pairs" ∧ r.baseURL = c.baseUrl) ∧
    (∀ (c : PublicRestClient) (t : Transport PairRequestParams PairData) p,
      ∀ r ∈ (c.getPair t p).requests, r.path = "/api/pair" ∧ r.baseURL = c.baseUrl) ∧
    (∀ (c : PublicRestClient) (t : Transport Unit TickersData),
      ∀ r ∈ (c.getTickers t).requests, r.path = "/api/tickers" ∧ r.baseURL = c.baseUrl) ∧
    (∀ (c : PublicRestClient) (t : Transport TickerRequestParams TickerData) p,
      ∀ r ∈ (c.getTicker t p).requests, r.path = "/api/ticker" ∧ r.baseURL = c.baseUrl) := by
  refine ⟨?_, ?_, ?_, ?_, ?_, ?_, ?_⟩
  · intro c t p r hr
    rcases mem_requests_getWithBaseUrl c t "/api/book" (some p) hr with rfl
    exact ⟨rfl, rfl⟩
  · intro c t p r hr
    rcases mem_requests_getWithKlineUrl c t "/v1/market/kline" (some p) hr with rfl
    exact ⟨rfl, rfl⟩
  · intro c t p r hr
    rcases mem_requests_getWithBaseUrl c t "/api/trades" (some p) hr with rfl
    exact ⟨rfl, rfl⟩
  · intro c t r hr
    rcases mem_requests_getWithBaseUrl c t "/api/pairs" none hr with rfl
    exact ⟨rfl, rfl⟩
  · intro c t p r hr
    rcases mem_requests_getWithBaseUrl c t "/api/pair" (some p) hr with rfl
    exact ⟨rfl, rfl⟩
  · intro c t r hr
    rcases mem_requests_getWithBaseUrl c t "/api/tickers" none hr with rfl
    exact ⟨rfl, rfl⟩
  · intro c t p r hr
    rcases mem_requests_getWithBaseUrl c t "/api/ticker" (some p) hr with rfl
    exact ⟨rfl, rfl⟩

/-- Witness for C3: the one request issued by a concrete getOrderbook call
goes to "/api/book" against the main base URL of the client. -/
theorem C3_fixed_paths_and_base_urls_witness :
    (builtRequest sampleClient.baseUrl "/api/book" (some samplePairParams)
      : Request OrderbookRequestParams).path = "/api/book" ∧
    (builtRequest sampleClient.baseUrl "/api/book" (some samplePairParams)
      : Request OrderbookRequestParams).baseURL = sampleClient.baseUrl :=
  C3_fixed_paths_and_base_urls.1 sampleClient sampleOrderbookT404 samplePairParams
    (builtRequest sampleClient.baseUrl "/api/book" (some samplePairParams))
    (by decide)

/-- C4: every public operation that takes a parameter record (getOrderbook,
getKline, getTrades, getPair, getTicker) forwards the record of the caller
unchanged as the query parameters of the single outgoing request; no field
is added, dropped, renamed, or reinterpreted. -/
theorem C4_params_forwarded_verbatim :
    (∀ (c : PublicRestClient) (t : Transport OrderbookRequestParams OrderbookData) p,
      ∀ r ∈ (c.getOrderbook t p).requests, r.params = some p) ∧
    (∀ (c : PublicRestClient) (t : Transport KlineRequestParams KlineData) p,
      ∀ r ∈ (c.getKline t p).requests, r.params = some p) ∧
    (∀ (c : PublicRestClient) (t : Transport TradeRequestParams TradeData) p,
      ∀ r ∈ (c.getTrades t p).requests, r.params = some p) ∧
    (∀ (c : PublicRestClient) (t : Transport PairRequestParams PairData) p,
      ∀ r ∈ (c.getPair t p).requests, r.params = some p) ∧
    (∀ (c : PublicRestClient) (t : Transport TickerRequestParams TickerData) p,
      ∀ r ∈ (c.getTicker t p).requests, r.params = some p) := by
  refine ⟨?_, ?_, ?_, ?_, ?_⟩
  · intro c t p r hr
    rcases mem_requests_getWithBaseUrl c t "/api/book" (some p) hr with rfl
    rfl
  · intro c t p r hr
    rcases mem_requests_getWithKlineUrl c t "/v1/market/kline" (some p) hr with rfl
    rfl
  · intro c t p r hr
    rcases mem_requests_getWithBaseUrl c t "/api/trades" (some p) hr with rfl
    rfl
  · intro c t p r hr
    rcases mem_requests_getWithBaseUrl c t "/api/pair" (some p) hr with rfl
    rfl
  · intro c t p r hr
    rcases mem_requests_getWithBaseUrl c t "/api/ticker" (some p) hr with rfl
    rfl

/-- Witness for C4: the one request issued by a concrete getKline call
carries exactly the kline parameter record of the caller (so the `resolution`
and the trades-style fields are passed through as given). -/
theorem C4_params_forwarded_verbatim_witness :
    (builtRequest sampleClient.klineUrl "/v1/market/kline" (some sampleKlineParams)
      : Request KlineRequestParams).params = some sampleKlineParams :=
  C4_params_forwarded_verbatim.2.1 sampleClient sampleKlineT400 sampleKlineParams
    (builtRequest sampleClient.klineUrl "/v1/market/kline" (some sampleKlineParams))
    (by decide)

/-- C5: on a status-200 response, every public operation returns exactly
the parsed JSON body of the response — the ApiResponse envelope with
fields status, message, optional count and the typed data payload — with
no field modified, added, or removed. -/
theorem C5_returns_parsed_body_on_200 :
    (∀ (c : PublicRestClient) (t : Transport OrderbookRequestParams OrderbookData) p,
      (t (builtRequest c.baseUrl "/api/book" (some p))).status = 200 →
      (c.getOrderbook t p).outcome
        = Except.ok (t (builtRequest c.baseUrl "/api/book" (some p))).data) ∧
    (∀ (c : PublicRestClient) (t : Transport KlineRequestParams KlineData) p,
      (t (builtRequest c.klineUrl "/v1/market/kline" (some p))).status = 200 →
      (c.getKline t p).outcome
        = Except.ok (t (builtRequest c.klineUrl "/v1/market/kline" (some p))).data) ∧
    (∀ (c : PublicRestClient) (t : Transport TradeRequestParams TradeData) p,
      (t (builtRequest c.baseUrl "/api/trades" (some p))).status = 200 →
      (c.getTrades t p).outcome
        = Except.ok (t (builtRequest c.baseUrl "/api/trades" (some p))).data) ∧
    (∀ (c : PublicRestClient) (t : Transport Unit PairsData),
      (t (builtRequest c.baseUrl "/api/pairs" none)).status = 200 →
      (c.getPairs t).outcome
        = Except.ok (t (builtRequest c.baseUrl "/api/pairs" none)).data) ∧
    (∀ (c : PublicRestClient) (t : Transport PairRequestParams PairData) p,
      (t (builtRequest c.baseUrl "/api/pair" (some p))).status = 200 →
      (c.getPair t p).outcome
        = Except.ok (t (builtRequest c.baseUrl "/api/pair" (some p))).data) ∧
    (∀ (c : PublicRestClient) (t : Transport Unit TickersData),
      (t (builtRequest c.baseUrl "/api/tickers" none)).status = 200 →
      (c.getTickers t).outcome
        = Except.ok (t (builtRequest c.baseUrl "/api/tickers" none)).data) ∧
    (∀ (c : PublicRestClient) (t : Transport TickerRequestParams TickerData) p,
      (t (builtRequest c.baseUrl "/api/ticker" (some p))).status = 200 →
      (c.getTicker t p).outcome
        = Except.ok (t (builtRequest c.baseUrl "/api/ticker" (some p))).data) :=
  ⟨fun c t p h => getWithBaseUrl_outcome_ok c t "/api/book" (some p) h,
   fun c t p h => getWithKlineUrl_outcome_ok c t "/v1/market/kline" (some p) h,
   fun c t p h => getWithBaseUrl_outcome_ok c t "/api/trades" (some p) h,
   fun c t h => getWithBaseUrl_outcome_ok c t "/api/pairs" none h,
   fun c t p h => getWithBaseUrl_outcome_ok c t "/api/pair" (some p) h,
   fun c t h => getWithBaseUrl_outcome_ok c t "/api/tickers" none h,
   fun c t p h => getWithBaseUrl_outcome_ok c t "/api/ticker" (some p) h⟩

/-- Witness for C5: a concrete getOrderbook call against a transport that
answers with status 200 returns exactly the response body. -/
theorem C5_returns_parsed_body_on_200_witness :
    (sampleClient.getOrderbook sampleOrderbookT200 samplePairParams).outcome
      = Except.ok sampleOrderbookBody200 :=
  C5_returns_parsed_body_on_200.1 sampleClient sampleOrderbookT200
    samplePairParams (by decide)

/-- C6: constructed with no config, the main base URL is
"https://exchange-api.lcx.com/" and the kline base URL is
"https://api-kline.lcx.com/"; with a config, each provided URL overrides
the corresponding default; and these two URLs are the ones every
subsequent request of that client uses. -/
theorem C6_constructor_base_urls :
    ((PublicRestClient.new none).baseUrl = "https://exchange-api.lcx.com/" ∧
     (PublicRestClient.new none).klineUrl = "https://api-kline.lcx.com/") ∧
    (∀ (cfg : PublicRestClientConfig) (u : String), cfg.baseUrl = some u →
      (PublicRestClient.new (some cfg)).baseUrl = u) ∧
    (∀ (cfg : PublicRestClientConfig) (u : String), cfg.klineUrl = some u →
      (PublicRestClient.new (some cfg)).klineUrl = u) ∧
    (∀ (cfg : PublicRestClientConfig), cfg.baseUrl = none →
      (PublicRestClient.new (some cfg)).baseUrl = defaultBaseUrl) ∧
    (∀ (cfg : PublicRestClientConfig), cfg.klineUrl = none →
      (PublicRestClient.new (some cfg)).klineUrl = defaultKlineUrl) ∧
    (∀ (c : PublicRestClient) (t : Transport OrderbookRequestParams OrderbookData) p,
      ∀ r ∈ (c.getOrderbook t p).requests, r.baseURL = c.baseUrl) ∧
    (∀ (c : PublicRestClient) (t : Transport KlineRequestParams KlineData) p,
      ∀ r ∈ (c.getKline t p).requests, r.baseURL = c.klineUrl) ∧
    (∀ (c : PublicRestClient) (t : Transport TradeRequestParams TradeData) p,
      ∀ r ∈ (c.getTrades t p).requests, r.baseURL = c.baseUrl) ∧
    (∀ (c : PublicRestClient) (t : Transport Unit PairsData),
      ∀ r ∈ (c.getPairs t).requests, r.baseURL = c.baseUrl) ∧
    (∀ (c : PublicRestClient) (t : Transport PairRequestParams PairData) p,
      ∀ r ∈ (c.getPair t p).requests, r.baseURL = c.baseUrl) ∧
    (∀ (c : PublicRestClient) (t : Transport Unit TickersData),
      ∀ r ∈ (c.getTickers t).requests, r.baseURL = c.baseUrl) ∧
    (∀ (c : PublicRestClient) (t : Transport TickerRequestParams TickerData) p,
      ∀ r ∈ (c.getTicker t p).requests, r.baseURL = c.baseUrl) := by
  refine ⟨⟨rfl, rfl⟩, ?_, ?_, ?_, ?_, ?_, ?_, ?_, ?_, ?_, ?_, ?_⟩
  · intro cfg u h
    simp [PublicRestClient.new, h]
  · intro cfg u h
    simp [PublicRestClient.new, h]
  · intro cfg h
    simp [PublicRestClient.new, h]
  · intro cfg h
    simp [PublicRestClient.new, h]
  · intro c t p r hr
    rcases mem_requests_getWithBaseUrl c t "/api/book" (some p) hr with rfl
    rfl
  · intro c t p r hr
    rcases mem_requests_getWithKlineUrl c t "/v1/market/kline" (some p) hr with rfl
    rfl
  · intro c t p r hr
    rcases mem_requests_getWithBaseUrl c t "/api/trades" (some p) hr with rfl
    rfl
  · intro c t r hr
    rcases mem_requests_getWithBaseUrl c t "/api/pairs" none hr with rfl
    rfl
  · intro c t p r hr
    rcases mem_requests_getWithBaseUrl c t "/api/pair" (some p) hr with rfl
    rfl
  · intro c t r hr
    rcases mem_requests_getWithBaseUrl c t "/api/tickers" none hr with rfl
    rfl
  · intro c t p r hr
    rcases mem_requests_getWithBaseUrl c t "/api/ticker" (some p) hr with rfl
    rfl

/-- Witness for C6: a config providing only a main base URL overrides the
main default and leaves the kline default in place. -/
theorem C6_constructor_base_urls_witness :
    (PublicRestClient.new
        (some { baseUrl := some "https://example.org/", klineUrl := none })).baseUrl
      = "https://example.org/" ∧
    (PublicRestClient.new
        (some { baseUrl := some "https://example.org/", klineUrl := none })).klineUrl
      = defaultKlineUrl :=
  ⟨C6_constructor_base_urls.2.1
      { baseUrl := some "https://example.org/", klineUrl := none }
      "https://example.org/" rfl,
   C6_constructor_base_urls.2.2.2.2.1
      { baseUrl := some "https://example.org/", klineUrl := none } rfl⟩

/-- C7: no public operation modifies any field of the client; the state
after any call — including a throwing call — equals the state before it,
and a call made on the post-call state behaves exactly as on the original
client. -/
theorem C7_client_state_unchanged :
    (∀ (c : PublicRestClient) (t : Transport OrderbookRequestParams OrderbookData) p,
      (c.getOrderbook t p).finalState = c) ∧
    (∀ (c : PublicRestClient) (t : Transport KlineRequestParams KlineData) p,
      (c.getKline t p).finalState = c) ∧
    (∀ (c : PublicRestClient) (t : Transport TradeRequestParams TradeData) p,
      (c.getTrades t p).finalState = c) ∧
    (∀ (c : PublicRestClient) (t : Transport Unit PairsData),
      (c.getPairs t).finalState = c) ∧
    (∀ (c : PublicRestClient) (t : Transport PairRequestParams PairData) p,
      (c.getPair t p).finalState = c) ∧
    (∀ (c : PublicRestClient) (t : Transport Unit TickersData),
      (c.getTickers t).finalState = c) ∧
    (∀ (c : PublicRestClient) (t : Transport TickerRequestParams TickerData) p,
      (c.getTicker t p).finalState = c) ∧
    (∀ (c : PublicRestClient) (t1 : Transport OrderbookRequestParams OrderbookData)
        p1 (t2 : Transport TradeRequestParams TradeData) p2,
      ((c.getOrderbook t1 p1).finalState.getTrades t2 p2) = c.getTrades t2 p2) :=
  ⟨fun c t p => getWithBaseUrl_finalState c t "/api/book" (some p),
   fun c t p => getWithKlineUrl_finalState c t "/v1/market/kline" (some p),
   fun c t p => getWithBaseUrl_finalState c t "/api/trades" (some p),
   fun c t => getWithBaseUrl_finalState c t "/api/pairs" none,
   fun c t p => getWithBaseUrl_finalState c t "/api/pair" (some p),
   fun c t => getWithBaseUrl_finalState c t "/api/tickers" none,
   fun c t p => getWithBaseUrl_finalState c t "/api/ticker" (some p),
   fun c t1 p1 t2 p2 => by
     rw [show (c.getOrderbook t1 p1).finalState = c from
       getWithBaseUrl_finalState c t1 "/api/book" (some p1)]⟩

/-- C8: every public operation issues exactly one HTTP request per call,
that request uses the GET method, and it carries a
"Content-Type: application/json" header. -/
theorem C8_single_get_with_json_header :
    (∀ (c : PublicRestClient) (t : Transport OrderbookRequestParams OrderbookData) p,
      (c.getOrderbook t p).requests.length = 1 ∧
      ∀ r ∈ (c.getOrderbook t p).requests, r.method = "get" ∧
        ("Content-Type", "application/json") ∈ r.headers) ∧
    (∀ (c : PublicRestClient) (t : Transport KlineRequestParams KlineData) p,
      (c.getKline t p).requests.length = 1 ∧
      ∀ r ∈ (c.getKline t p).requests, r.method = "get" ∧
        ("Content-Type", "application/json") ∈ r.headers) ∧
    (∀ (c : PublicRestClient) (t : Transport TradeRequestParams TradeData) p,
      (c.getTrades t p).requests.length = 1 ∧
      ∀ r ∈ (c.getTrades t p).requests, r.method = "get" ∧
        ("Content-Type", "application/json") ∈ r.headers) ∧
    (∀ (c : PublicRestClient) (t : Transport Unit PairsData),
      (c.getPairs t).requests.length = 1 ∧
      ∀ r ∈ (c.getPairs t).requests, r.method = "get" ∧
        ("Content-Type", "application/json") ∈ r.headers) ∧
    (∀ (c : PublicRestClient) (t : Transport PairRequestParams PairData) p,
      (c.getPair t p).requests.length = 1 ∧
      ∀ r ∈ (c.getPair t p).requests, r.method = "get" ∧
        ("Content-Type", "application/json") ∈ r.headers) ∧
    (∀ (c : PublicRestClient) (t : Transport Unit TickersData),
      (c.getTickers t).requests.length = 1 ∧
      ∀ r ∈ (c.getTickers t).requests, r.method = "get" ∧
        ("Content-Type", "application/json") ∈ r.headers) ∧
    (∀ (c : PublicRestClient) (t : Transport TickerRequestParams TickerData) p,
      (c.getTicker t p).requests.length = 1 ∧
      ∀ r ∈ (c.getTicker t p).requests, r.method = "get" ∧
        ("Content-Type", "application/json") ∈ r.headers) :=
  ⟨fun c t p => singleGetJson_getWithBaseUrl c t "/api/book" (some p),
   fun c t p => singleGetJson_getWithKlineUrl c t "/v1/market/kline" (some p),
   fun c t p => singleGetJson_getWithBaseUrl c t "/api/trades" (some p),
   fun c t => singleGetJson_getWithBaseUrl c t "/api/pairs" none,
   fun c t p => singleGetJson_getWithBaseUrl c t "/api/pair" (some p),
   fun c t => singleGetJson_getWithBaseUrl c t "/api/tickers" none,
   fun c t p => singleGetJson_getWithBaseUrl c t "/api/ticker" (some p)⟩

/-- Witness for C8: a concrete getOrderbook call issues exactly one
request, a GET carrying the JSON content-type header. -/
theorem C8_single_get_with_json_header_witness :
    (sampleClient.getOrderbook sampleOrderbookT404 samplePairParams).requests.length = 1 ∧
    ((builtRequest sampleClient.baseUrl "/api/book" (some samplePairParams)
        : Request OrderbookRequestParams).method = "get" ∧
     ("Content-Type", "application/json") ∈
       (builtRequest sampleClient.baseUrl "/api/book" (some samplePairParams)
        : Request OrderbookRequestParams).headers) :=
  ⟨(C8_single_get_with_json_header.1 sampleClient sampleOrderbookT404
      samplePairParams).1,
   (C8_single_get_with_json_header.1 sampleClient sampleOrderbookT404
      samplePairParams).2
     (builtRequest sampleClient.baseUrl "/api/book" (some samplePairParams))
     (by decide)⟩

/-- C9: the two private helpers compute the same function except for the
base URL they attach: getWithKlineUrl of a client equals getWithBaseUrl of
the same client with baseUrl replaced by klineUrl, and both helpers
coincide with a single helper (getWithUrl) parameterized by the base
URL. -/
theorem C9_helpers_differ_only_in_base_url :
    ∀ (P D : Type) (c : PublicRestClient) (t : Transport P D)
      (path : String) (ps : Option P),
      c.getWithBaseUrl t path ps = c.getWithUrl c.baseUrl t path ps ∧
      c.getWithKlineUrl t path ps = c.getWithUrl c.klineUrl t path ps ∧
      (c.getWithKlineUrl t path ps).requests
        = (({ c with baseUrl := c.klineUrl } : PublicRestClient).getWithBaseUrl
            t path ps).requests ∧
      (c.getWithKlineUrl t path ps).outcome
        = (({ c with baseUrl := c.klineUrl } : PublicRestClient).getWithBaseUrl
            t path ps).outcome := by
  intro P D c t path ps
  refine ⟨rfl, rfl, ?_, ?_⟩ <;>
    (unfold PublicRestClient.getWithKlineUrl PublicRestClient.getWithBaseUrl
     dsimp only
     split <;> rfl)

/-- C10: getPairs and getTickers, which take no parameter record, issue
their request with no caller-supplied query parameters at all (the params
argument of the helper is omitted). -/
theorem C10_no_params_for_pairs_and_tickers :
    (∀ (c : PublicRestClient) (t : Transport Unit PairsData),
      ∀ r ∈ (c.getPairs t).requests, r.params = none) ∧
    (∀ (c : PublicRestClient) (t : Transport Unit TickersData),
      ∀ r ∈ (c.getTickers t).requests, r.params = none) := by
  constructor
  · intro c t r hr
    rcases mem_requests_getWithBaseUrl c t "/api/pairs" none hr with rfl
    rfl
  · intro c t r hr
    rcases mem_requests_getWithBaseUrl c t "/api/tickers" none hr with rfl
    rfl

/-- Witness for C10: the one request issued by a concrete getPairs call
carries no query parameters. -/
theorem C10_no_params_for_pairs_and_tickers_witness :
    (builtRequest sampleClient.baseUrl "/api/pairs" none : Request Unit).params
      = none :=
  C10_no_params_for_pairs_and_tickers.1 sampleClient samplePairsT200
    (builtRequest sampleClient.baseUrl "/api/pairs" none) (by decide)
